import Mathlib

/-
Shallow embedding of the LMS credential-validation framework
(src/services/lms_validators): the ValidationResult record, the
template-method orchestrator BaseLMSValidator.validate, the Canvas
concrete validator (structural credential validation, permission
check, metadata collection) and the validator factory/registry.

Python dictionaries with string keys are embedded as association
lists of (String, PyVal); Python exceptions raised by the embedded
code are represented with Except; remote API behaviour is a
parameter (a record of call outcomes), so that the control flow of
each method is a total Lean function of that parameter.
-/

/-- A Python value as it occurs in credential bundles and result
detail maps: a string, an integer, or None. -/
inductive PyVal where
  | str (s : String)
  | int (n : Int)
  | pynone
  deriving DecidableEq, Repr

/-- A Python dict with string keys, as an association list in
insertion order (no duplicate keys arise in the embedded code). -/
abbrev PyDict := List (String × PyVal)

/-- Dict lookup: value of the first binding of the key. -/
def getKey : PyDict → String → Option PyVal
  | [], _ => none
  | (k, v) :: rest, key => if k = key then some v else getKey rest key

/-- Dict membership test, as in the Python expression key in d. -/
def hasKey (d : PyDict) (key : String) : Bool :=
  (getKey d key).isSome

/-- Dict assignment d[key] = v: replaces the value of an existing
binding in place, otherwise appends the new binding at the end. -/
def setKey : PyDict → String → PyVal → PyDict
  | [], key, v => [(key, v)]
  | (k, w) :: rest, key, v =>
      if k = key then (k, v) :: rest else (k, w) :: setKey rest key v

/-- Python str.strip with no argument drops whitespace from both
ends; this is the right-hand half, on the character list. -/
def dropTrailing {α : Type} (p : α → Bool) (l : List α) : List α :=
  (l.reverse.dropWhile p).reverse

/-- Python str.strip on the character list. -/
def pyStripList (l : List Char) : List Char :=
  dropTrailing Char.isWhitespace (l.dropWhile Char.isWhitespace)

/-- Python api_token.strip(). -/
def pyStrip (s : String) : String :=
  ⟨pyStripList s.data⟩

/-- Python base_url.rstrip("/"): drop trailing slash characters. -/
def pyRstripSlash (s : String) : String :=
  ⟨dropTrailing (fun c => c = '/') s.data⟩

/-- Python s.startswith(pre) for plain strings. -/
def pyStartsWith (s pre : String) : Bool :=
  pre.data.isPrefixOf s.data

/-- Python s.lower() for plain strings. -/
def pyLower (s : String) : String :=
  ⟨s.data.map Char.toLower⟩

/-- Python len(s). -/
def pyLen (s : String) : Nat :=
  s.data.length

/-- A Python exception caught by the orchestrator: its class name
(type(e).__name__) and its str(e) message. -/
structure PyExn where
  className : String
  msg : String
  deriving DecidableEq, Repr

/-- Exceptions that construction or the factory can raise:
InvalidCredentialsError, AttributeError (from calling startswith on
a non-string), UnsupportedLMSError. -/
inductive PyError where
  | invalidCredentials (msg : String)
  | attributeError (msg : String)
  | unsupportedLMS (msg : String)
  deriving DecidableEq, Repr

/-- The ValidationResult dataclass of src/services/lms_validators/base.py. -/
structure ValidationResult where
  is_valid : Bool
  message : String
  details : PyDict
  missing_permissions : Option (List String)
  deriving DecidableEq, Repr

/-- The behaviour of one validator instance as seen by the
orchestrator BaseLMSValidator.validate: each abstract step either
returns its contract value or raises. -/
structure LMSValidator where
  test_connection : Except PyExn (Bool × String)
  check_permissions : Except PyExn (Bool × List String)
  get_connection_metadata : Except PyExn PyDict

/-- How many times the orchestrator invoked each step during one
validate() call. -/
structure StepCalls where
  connection_calls : Nat
  permission_calls : Nat
  metadata_calls : Nat
  deriving DecidableEq, Repr

namespace BaseLMSValidator

/-- The result built by the single except-handler of validate(). -/
def exceptionResult (e : PyExn) : ValidationResult :=
  { is_valid := false
    message := "Validation failed: " ++ e.msg
    details := [("error_type", PyVal.str e.className)]
    missing_permissions := none }

/-- BaseLMSValidator.validate of src/services/lms_validators/base.py,
instrumented with the number of times each abstract step ran. -/
def validate (v : LMSValidator) : ValidationResult × StepCalls :=
  match v.test_connection with
  | .error e => (exceptionResult e, ⟨1, 0, 0⟩)
  | .ok (connected, conn_msg) =>
    if connected then
      match v.check_permissions with
      | .error e => (exceptionResult e, ⟨1, 1, 0⟩)
      | .ok (has_perms, missing) =>
        if has_perms then
          match v.get_connection_metadata with
          | .error e => (exceptionResult e, ⟨1, 1, 1⟩)
          | .ok metadata =>
              ({ is_valid := true
                 message := "Connection validated successfully"
                 details := metadata
                 missing_permissions := none }, ⟨1, 1, 1⟩)
        else
          ({ is_valid := false
             message := "Missing required permissions: " ++ String.intercalate ", " missing
             details := []
             missing_permissions := some missing }, ⟨1, 1, 0⟩)
    else
      ({ is_valid := false
         message := conn_msg
         details := []
         missing_permissions := none }, ⟨1, 0, 0⟩)

end BaseLMSValidator

/-- C1: if test_connection returns (False, msg), validate returns an
invalid result with exactly that message, empty details and
missing_permissions unset, and neither check_permissions nor the
metadata-collection step is invoked. -/
theorem claim_C1_connection_failure_short_circuits
    (v : LMSValidator) (msg : String)
    (h : v.test_connection = .ok (false, msg)) :
    BaseLMSValidator.validate v =
      ({ is_valid := false, message := msg, details := [],
         missing_permissions := none }, ⟨1, 0, 0⟩) := by
  simp [BaseLMSValidator.validate, h]

/-- A validator double whose connection test fails. -/
def connFailValidator : LMSValidator :=
  { test_connection := .ok (false, "Could not connect to Canvas instance. Please verify the base URL")
    check_permissions := .ok (true, [])
    get_connection_metadata := .ok [] }

/-- Witness for C1 at a concrete validator double. -/
theorem claim_C1_witness :
    BaseLMSValidator.validate connFailValidator =
      ({ is_valid := false
         message := "Could not connect to Canvas instance. Please verify the base URL"
         details := []
         missing_permissions := none }, ⟨1, 0, 0⟩) :=
  claim_C1_connection_failure_short_circuits connFailValidator _ rfl

/-- C4: missing_permissions is set iff the run reached a permission
shortfall report from check_permissions; in that case the result is
invalid, the message enumerates the missing capabilities, and the
field equals the reported list. In every other outcome the
orchestrator leaves the field at its None default. -/
theorem claim_C4_missing_permissions_iff_shortfall (v : LMSValidator) :
    ((∃ m, (BaseLMSValidator.validate v).1.missing_permissions = some m) ↔
      ∃ msg m, v.test_connection = .ok (true, msg) ∧
        v.check_permissions = .ok (false, m)) ∧
    (∀ m, (BaseLMSValidator.validate v).1.missing_permissions = some m →
      (BaseLMSValidator.validate v).1.is_valid = false ∧
      (BaseLMSValidator.validate v).1.message =
        "Missing required permissions: " ++ String.intercalate ", " m ∧
      v.check_permissions = .ok (false, m)) := by
  obtain ⟨tc, cp, md⟩ := v
  rcases tc with e | ⟨b, cmsg⟩
  · simp [BaseLMSValidator.validate, BaseLMSValidator.exceptionResult]
  · cases b
    · simp [BaseLMSValidator.validate]
    · rcases cp with e | ⟨hp, miss⟩
      · simp [BaseLMSValidator.validate, BaseLMSValidator.exceptionResult]
      · cases hp
        · simp [BaseLMSValidator.validate]
        · rcases md with e | meta <;>
            simp [BaseLMSValidator.validate, BaseLMSValidator.exceptionResult]

/-- A validator double that reports a permission shortfall. -/
def permFailValidator : LMSValidator :=
  { test_connection := .ok (true, "Connection successful")
    check_permissions := .ok (false, ["read_students", "read_assignments"])
    get_connection_metadata := .ok [] }

/-- Witness for C4 at a concrete validator double. -/
theorem claim_C4_witness :
    (BaseLMSValidator.validate permFailValidator).1.is_valid = false ∧
    (BaseLMSValidator.validate permFailValidator).1.message =
      "Missing required permissions: " ++
        String.intercalate ", " ["read_students", "read_assignments"] ∧
    permFailValidator.check_permissions =
      .ok (false, ["read_students", "read_assignments"]) :=
  (claim_C4_missing_permissions_iff_shortfall permFailValidator).2
    ["read_students", "read_assignments"] rfl

/-- C5: validate is a total function of the step outcomes (it never
propagates an exception); an exception raised by the connection
test, the permission check or the metadata collection yields an
invalid result whose details bind error_type to the exception class
name. -/
theorem claim_C5_exceptions_become_failed_results
    (v : LMSValidator) (e : PyExn) :
    (v.test_connection = .error e →
      (BaseLMSValidator.validate v).1.is_valid = false ∧
      getKey (BaseLMSValidator.validate v).1.details "error_type" =
        some (PyVal.str e.className)) ∧
    (∀ msg, v.test_connection = .ok (true, msg) →
      v.check_permissions = .error e →
      (BaseLMSValidator.validate v).1.is_valid = false ∧
      getKey (BaseLMSValidator.validate v).1.details "error_type" =
        some (PyVal.str e.className)) ∧
    (∀ msg perms, v.test_connection = .ok (true, msg) →
      v.check_permissions = .ok (true, perms) →
      v.get_connection_metadata = .error e →
      (BaseLMSValidator.validate v).1.is_valid = false ∧
      getKey (BaseLMSValidator.validate v).1.details "error_type" =
        some (PyVal.str e.className)) := by
  refine ⟨fun h => ?_, fun msg h1 h2 => ?_, fun msg perms h1 h2 h3 => ?_⟩
  · simp [BaseLMSValidator.validate, BaseLMSValidator.exceptionResult,
      getKey, h]
  · simp [BaseLMSValidator.validate, BaseLMSValidator.exceptionResult,
      getKey, h1, h2]
  · simp [BaseLMSValidator.validate, BaseLMSValidator.exceptionResult,
      getKey, h1, h2, h3]

/-- A validator double whose connection test raises. -/
def connRaisesValidator : LMSValidator :=
  { test_connection := .error ⟨"ValueError", "bad url"⟩
    check_permissions := .ok (true, [])
    get_connection_metadata := .ok [] }

/-- Witness for C5 at a concrete validator double. -/
theorem claim_C5_witness :
    (BaseLMSValidator.validate connRaisesValidator).1.is_valid = false ∧
    getKey (BaseLMSValidator.validate connRaisesValidator).1.details
      "error_type" = some (PyVal.str "ValueError") :=
  (claim_C5_exceptions_become_failed_results connRaisesValidator
    ⟨"ValueError", "bad url"⟩).1 rfl

/-- Outcome of one remote Canvas API call, classified by the
exception taxonomy the validator distinguishes: success, an
authorization-class failure (Unauthorized or Forbidden), another
CanvasException, or a non-Canvas exception. -/
inductive ApiOutcome (α : Type) where
  | ok (a : α)
  | authError (msg : String)
  | otherCanvas (msg : String)
  | otherExn (msg : String)
  deriving DecidableEq, Repr

/-- The probe either succeeded or failed with an authorization-class
error (no other exception escaped it). -/
def probeSettled {α : Type} : ApiOutcome α → Bool
  | .ok _ => true
  | .authError _ => true
  | _ => false

/-- The call failed with an authorization-class error. -/
def isAuthFailure {α : Type} : ApiOutcome α → Bool
  | .authError _ => true
  | _ => false

/-- The current-user record fetched from Canvas. -/
structure CanvasUser where
  id : Int
  name : String
  primary_email : Option String
  email : Option String
  deriving DecidableEq, Repr

/-- An account record fetched from Canvas. -/
structure CanvasAccount where
  id : Int
  name : String
  deriving DecidableEq, Repr

/-- The remote behaviour seen by CanvasValidator._get_connection_metadata. -/
structure CanvasMetaApi where
  get_current_user : ApiOutcome CanvasUser
  get_accounts : ApiOutcome (List CanvasAccount)
  deriving DecidableEq, Repr

/-- Python getattr(user, "primary_email", None) or getattr(user,
"email", None): the first operand wins unless it is falsy. -/
def pyOrStr (a b : Option String) : Option String :=
  match a with
  | some s => if s = "" then b else some s
  | none => b

/-- An optional string as a Python dict value. -/
def optStrVal : Option String → PyVal
  | some s => PyVal.str s
  | none => PyVal.pynone

namespace CanvasValidator

/-- CanvasValidator._get_connection_metadata of
src/services/lms_validators/canvas_validator.py. The wall-clock
timestamp is a parameter. Every failure path returns the metadata
accumulated so far: a failed user fetch is swallowed by the outer
handler, a failed account fetch by the inner one (Canvas-class
errors) or the outer one (anything else); in all cases the method
returns normally. -/
def get_connection_metadata (base_url now : String)
    (api : CanvasMetaApi) : PyDict :=
  let metadata : PyDict :=
    [("canvas_instance", PyVal.str base_url),
     ("validated_at", PyVal.str now)]
  match api.get_current_user with
  | .ok user =>
    let metadata := metadata ++
      [("canvas_user_id", PyVal.int user.id),
       ("canvas_user_name", PyVal.str user.name),
       ("canvas_user_email", optStrVal (pyOrStr user.primary_email user.email))]
    match api.get_accounts with
    | .ok (account :: _) =>
        metadata ++
          [("canvas_account_id", PyVal.int account.id),
           ("canvas_account_name", PyVal.str account.name)]
    | _ => metadata
  | _ => metadata

end CanvasValidator

/-- A validator double whose metadata-collection step raises. -/
def metaRaisesValidator : LMSValidator :=
  { test_connection := .ok (true, "Connection successful")
    check_permissions := .ok (true, [])
    get_connection_metadata := .error ⟨"RuntimeError", "boom"⟩ }

/-- C2 counterexample: a validator whose connection test succeeds and
whose permission check returns (True, []), but whose
metadata-collection step raises, is reported invalid by validate:
the blanket except-handler of the orchestrator converts the
exception into a failed result, not a successful one. -/
theorem claim_C2_counterexample :
    metaRaisesValidator.test_connection = .ok (true, "Connection successful") ∧
    metaRaisesValidator.check_permissions = .ok (true, []) ∧
    (BaseLMSValidator.validate metaRaisesValidator).1.is_valid = false :=
  ⟨rfl, rfl, rfl⟩

/-- C2 amended: when connection and permissions succeed, an exception
raised by the metadata-collection step makes validate return an
invalid result carrying error_type; the overall result is valid
exactly when that step returns normally — which the Canvas
implementation always does, for every remote behaviour, because it
swallows its fetch failures internally. -/
theorem claim_C2_metadata_exception_handling
    (v : LMSValidator) (e : PyExn) (msg : String)
    (hconn : v.test_connection = .ok (true, msg))
    (hperm : v.check_permissions = .ok (true, [])) :
    (v.get_connection_metadata = .error e →
      (BaseLMSValidator.validate v).1.is_valid = false ∧
      getKey (BaseLMSValidator.validate v).1.details "error_type" =
        some (PyVal.str e.className)) ∧
    (∀ base now mapi,
      v.get_connection_metadata =
        .ok (CanvasValidator.get_connection_metadata base now mapi) →
      (BaseLMSValidator.validate v).1.is_valid = true) := by
  constructor
  · intro h
    simp [BaseLMSValidator.validate, BaseLMSValidator.exceptionResult,
      getKey, hconn, hperm, h]
  · intro base now mapi h
    simp [BaseLMSValidator.validate, hconn, hperm, h]

/-- A validator double built from the Canvas metadata collector with
a remote double whose account fetch fails. -/
def canvasMetaValidator : LMSValidator :=
  { test_connection := .ok (true, "Connection successful")
    check_permissions := .ok (true, [])
    get_connection_metadata :=
      .ok (CanvasValidator.get_connection_metadata
        "https://school.example.com" "2026-10-12T00:00:00+00:00"
        { get_current_user := .ok ⟨7, "Ada", some "ada@example.com", none⟩
          get_accounts := .otherExn "socket closed" }) }

/-- Witness for C2 at concrete doubles: a raising metadata step turns
into a failed result, and the Canvas metadata collector yields a
valid result even when its account fetch fails. -/
theorem claim_C2_witness :
    ((BaseLMSValidator.validate metaRaisesValidator).1.is_valid = false ∧
      getKey (BaseLMSValidator.validate metaRaisesValidator).1.details
        "error_type" = some (PyVal.str "RuntimeError")) ∧
    (BaseLMSValidator.validate canvasMetaValidator).1.is_valid = true :=
  ⟨(claim_C2_metadata_exception_handling metaRaisesValidator
      ⟨"RuntimeError", "boom"⟩ "Connection successful" rfl rfl).1 rfl,
   (claim_C2_metadata_exception_handling canvasMetaValidator
      ⟨"RuntimeError", "boom"⟩ "Connection successful" rfl rfl).2
      "https://school.example.com" "2026-10-12T00:00:00+00:00"
      { get_current_user := .ok ⟨7, "Ada", some "ada@example.com", none⟩
        get_accounts := .otherExn "socket closed" } rfl⟩

/-- A course record fetched from Canvas. -/
structure CanvasCourse where
  id : Int
  name : String
  deriving DecidableEq, Repr

/-- The remote behaviour seen by CanvasValidator.check_permissions:
the account-level course listing and, per course, the two dependent
probes (listing students, listing assignments). -/
structure CanvasPermApi where
  get_courses : ApiOutcome (List CanvasCourse)
  get_students : CanvasCourse → ApiOutcome Unit
  get_assignments : CanvasCourse → ApiOutcome Unit

/-- How many times each dependent probe ran during one
check_permissions() call. -/
structure ProbeCalls where
  student_probes : Nat
  assignment_probes : Nat
  deriving DecidableEq, Repr

namespace CanvasValidator

/-- One dependent probe inside check_permissions: an
authorization-class failure appends the capability to the missing
list and control continues; any other exception escapes the probe
and lands in the outer handlers, which turn it into the generic
failure pair returned by the whole method. -/
def probeMissing (perm : String) (o : ApiOutcome Unit) :
    Except (Bool × List String) (List String) :=
  match o with
  | .ok _ => .ok []
  | .authError _ => .ok [perm]
  | .otherCanvas m => .error (false, ["Permission check failed: " ++ m])
  | .otherExn m =>
      .error (false, ["Unexpected error during permission check: " ++ m])

/-- CanvasValidator.check_permissions of
src/services/lms_validators/canvas_validator.py, instrumented with
how many times each dependent probe ran. An authorization-class
failure of the course listing returns (False, [read_courses])
without attempting the probes; with no courses both probes are
skipped and the check succeeds; otherwise the two probes run
against the first course and the missing list decides the verdict.
Non-authorization exceptions anywhere fall through to the outer
CanvasException / Exception handlers. -/
def check_permissions (api : CanvasPermApi) :
    (Bool × List String) × ProbeCalls :=
  match api.get_courses with
  | .authError _ => ((false, ["read_courses"]), ⟨0, 0⟩)
  | .otherCanvas m => ((false, ["Permission check failed: " ++ m]), ⟨0, 0⟩)
  | .otherExn m =>
      ((false, ["Unexpected error during permission check: " ++ m]), ⟨0, 0⟩)
  | .ok [] => ((true, []), ⟨0, 0⟩)
  | .ok (course :: _) =>
    match probeMissing "read_students" (api.get_students course) with
    | .error r => (r, ⟨1, 0⟩)
    | .ok m1 =>
      match probeMissing "read_assignments" (api.get_assignments course) with
      | .error r => (r, ⟨1, 1⟩)
      | .ok m2 =>
        let missing_permissions := m1 ++ m2
        if missing_permissions.isEmpty then ((true, []), ⟨1, 1⟩)
        else ((false, missing_permissions), ⟨1, 1⟩)

end CanvasValidator

/-- A course used by the permission-check doubles. -/
def mathCourse : CanvasCourse := ⟨101, "Mathematics"⟩

/-- A permission-check double: the student probe fails with an
authorization error, then the assignment probe raises a
non-authorization Canvas exception. -/
def permApiStudentsAuthThenCrash : CanvasPermApi :=
  { get_courses := .ok [mathCourse]
    get_students := fun _ => .authError "unauthorized"
    get_assignments := fun _ => .otherCanvas "boom" }

/-- C3 counterexample: with one course listed, the student probe
fails with an authorization-class error, yet read_students is not
in the returned missing list — the later non-authorization failure
of the assignment probe escapes to the outer handler, which
discards the marking and returns a generic failure pair instead. -/
theorem claim_C3_counterexample :
    permApiStudentsAuthThenCrash.get_courses = .ok [mathCourse] ∧
    isAuthFailure (permApiStudentsAuthThenCrash.get_students mathCourse) = true ∧
    (CanvasValidator.check_permissions permApiStudentsAuthThenCrash).1 =
      (false, ["Permission check failed: boom"]) ∧
    ("read_students" ∈
      (CanvasValidator.check_permissions permApiStudentsAuthThenCrash).1.2 →
      False) := by
  refine ⟨rfl, rfl, rfl, ?_⟩
  decide

/-- C3 amended: (a) an authorization-class failure of the course
listing yields exactly (False, [read_courses]) with neither
dependent probe attempted; (b) when the listing returns at least
one course and each dependent probe either succeeds or fails with
an authorization-class error (a non-authorization exception instead
aborts the check with a generic failure pair, discarding any
markings), each capability is in the missing list exactly when its
probe had an authorization-class failure; (c) unconditionally, the
verdict is success iff the returned missing list is empty. -/
theorem claim_C3_permission_check_protocol (api : CanvasPermApi) :
    (∀ m, api.get_courses = .authError m →
      CanvasValidator.check_permissions api =
        ((false, ["read_courses"]), ⟨0, 0⟩)) ∧
    (∀ course rest, api.get_courses = .ok (course :: rest) →
      probeSettled (api.get_students course) = true →
      probeSettled (api.get_assignments course) = true →
      (("read_students" ∈ (CanvasValidator.check_permissions api).1.2 ↔
          isAuthFailure (api.get_students course) = true) ∧
       ("read_assignments" ∈ (CanvasValidator.check_permissions api).1.2 ↔
          isAuthFailure (api.get_assignments course) = true))) ∧
    ((CanvasValidator.check_permissions api).1.1 = true ↔
      (CanvasValidator.check_permissions api).1.2 = []) := by
  refine ⟨fun m h => ?_, fun course rest h hs ha => ?_, ?_⟩
  · simp [CanvasValidator.check_permissions, h]
  · rcases hs1 : api.get_students course with _ | s | s | s <;>
      rcases ha1 : api.get_assignments course with _ | t | t | t <;>
        simp_all [CanvasValidator.check_permissions,
          CanvasValidator.probeMissing, probeSettled, isAuthFailure, h]
  · rcases h : api.get_courses with cs | m | m | m
    · rcases cs with _ | ⟨course, rest⟩
      · simp [CanvasValidator.check_permissions, h]
      · rcases hs1 : api.get_students course with _ | s | s | s <;>
          rcases ha1 : api.get_assignments course with _ | t | t | t <;>
            simp_all [CanvasValidator.check_permissions,
              CanvasValidator.probeMissing]
    · simp [CanvasValidator.check_permissions, h]
    · simp [CanvasValidator.check_permissions, h]
    · simp [CanvasValidator.check_permissions, h]

/-- A permission-check double whose course listing is denied. -/
def permApiNoCourseAccess : CanvasPermApi :=
  { get_courses := .authError "unauthorized"
    get_students := fun _ => .ok ()
    get_assignments := fun _ => .ok () }

/-- A permission-check double with one course where only the student
probe is denied, with an authorization-class error. -/
def permApiStudentsDenied : CanvasPermApi :=
  { get_courses := .ok [mathCourse]
    get_students := fun _ => .authError "unauthorized"
    get_assignments := fun _ => .ok () }

/-- Witness for C3 at concrete remote doubles. -/
theorem claim_C3_witness :
    CanvasValidator.check_permissions permApiNoCourseAccess =
      ((false, ["read_courses"]), ⟨0, 0⟩) ∧
    "read_students" ∈
      (CanvasValidator.check_permissions permApiStudentsDenied).1.2 ∧
    ((CanvasValidator.check_permissions permApiStudentsDenied).1.1 = true ↔
      (CanvasValidator.check_permissions permApiStudentsDenied).1.2 = []) :=
  ⟨(claim_C3_permission_check_protocol permApiNoCourseAccess).1
      "unauthorized" rfl,
   (((claim_C3_permission_check_protocol permApiStudentsDenied).2.1
      mathCourse [] rfl rfl rfl).1).mpr rfl,
   (claim_C3_permission_check_protocol permApiStudentsDenied).2.2⟩

/-- The Python type name of an embedded value, as AttributeError
messages report it. -/
def pyTypeName : PyVal → String
  | .str _ => "str"
  | .int _ => "int"
  | .pynone => "NoneType"

namespace CanvasValidator

/-- CanvasValidator.validate_credentials_structure of
src/services/lms_validators/canvas_validator.py, on the credential
dict owned by the instance. Returns the (possibly normalized)
credential dict, or the exception the Python method raises: an
InvalidCredentialsError for each structural rule violation, and the
AttributeError that calling startswith on a non-string base_url
value produces. The base_url value is read once up front; the only
intervening write is to the api_token key, so the later read in the
Python code sees the same value. -/
def validate_credentials_structure (credentials : PyDict) :
    Except PyError PyDict :=
  match getKey credentials "base_url" with
  | none => .error (.invalidCredentials "Missing \x27base_url\x27 in credentials")
  | some base_url_val =>
    match getKey credentials "api_token" with
    | none => .error (.invalidCredentials "Missing \x27api_token\x27 in credentials")
    | some api_token_val =>
      match api_token_val with
      | .str api_token =>
        if api_token = "" then
          .error (.invalidCredentials "api_token must be a non-empty string")
        else
          let api_token_stripped := pyStrip api_token
          let credentials :=
            if api_token_stripped ≠ api_token then
              setKey credentials "api_token" (.str api_token_stripped)
            else credentials
          if pyLen api_token_stripped < 10 then
            .error (.invalidCredentials
              ("API token appears to be invalid - Canvas tokens are typically 60+ characters long. " ++
               "Please verify you copied the complete token from Canvas."))
          else
            match base_url_val with
            | .str base_url =>
              if !(pyStartsWith base_url "http://" ||
                   pyStartsWith base_url "https://") then
                .error (.invalidCredentials
                  "base_url must start with http:// or https://")
              else
                .ok (setKey credentials "base_url"
                  (.str (pyRstripSlash base_url)))
            | v =>
              .error (.attributeError
                ("\x27" ++ pyTypeName v ++
                 "\x27 object has no attribute \x27startswith\x27"))
      | _ => .error (.invalidCredentials "api_token must be a non-empty string")

end CanvasValidator

/-- C6: construction fails with InvalidCredentialsError naming the
missing field when base_url or api_token is absent, and a string
token whose whitespace-trimmed form is shorter than 10 characters
is rejected with InvalidCredentialsError even when the URL field is
a well-formed http or https URL. -/
theorem claim_C6_structural_failures (credentials : PyDict) :
    (getKey credentials "base_url" = none →
      CanvasValidator.validate_credentials_structure credentials =
        .error (.invalidCredentials "Missing \x27base_url\x27 in credentials")) ∧
    (∀ u, getKey credentials "base_url" = some u →
      getKey credentials "api_token" = none →
      CanvasValidator.validate_credentials_structure credentials =
        .error (.invalidCredentials "Missing \x27api_token\x27 in credentials")) ∧
    (∀ u t, getKey credentials "base_url" = some (.str u) →
      getKey credentials "api_token" = some (.str t) →
      (pyStartsWith u "http://" || pyStartsWith u "https://") = true →
      pyLen (pyStrip t) < 10 →
      ∃ m, CanvasValidator.validate_credentials_structure credentials =
        .error (.invalidCredentials m)) := by
  refine ⟨fun h => ?_, fun u hu ht => ?_, fun u t hu ht hurl hshort => ?_⟩
  · simp [CanvasValidator.validate_credentials_structure, h]
  · simp [CanvasValidator.validate_credentials_structure, hu, ht]
  · by_cases hempty : t = ""
    · exact ⟨"api_token must be a non-empty string", by
        simp [CanvasValidator.validate_credentials_structure, hu, ht, hempty]⟩
    · refine ⟨"API token appears to be invalid - Canvas tokens are typically 60+ characters long. " ++
        "Please verify you copied the complete token from Canvas.", ?_⟩
      simp [CanvasValidator.validate_credentials_structure, hu, ht, hempty,
        hshort]

/-- Witness for C6 at concrete credential bundles. -/
theorem claim_C6_witness :
    CanvasValidator.validate_credentials_structure
      [("api_token", PyVal.str "TTTTTTTTTTTTTTT")] =
      .error (.invalidCredentials "Missing \x27base_url\x27 in credentials") ∧
    CanvasValidator.validate_credentials_structure
      [("base_url", PyVal.str "https://x.test")] =
      .error (.invalidCredentials "Missing \x27api_token\x27 in credentials") ∧
    ∃ m, CanvasValidator.validate_credentials_structure
      [("base_url", PyVal.str "https://x.test"),
       ("api_token", PyVal.str "short")] =
      .error (.invalidCredentials m) :=
  ⟨(claim_C6_structural_failures
      [("api_token", PyVal.str "TTTTTTTTTTTTTTT")]).1 rfl,
   (claim_C6_structural_failures
      [("base_url", PyVal.str "https://x.test")]).2.1
      (PyVal.str "https://x.test") rfl rfl,
   (claim_C6_structural_failures
      [("base_url", PyVal.str "https://x.test"),
       ("api_token", PyVal.str "short")]).2.2
      "https://x.test" "short" rfl rfl rfl (by decide)⟩

/-- C10: when base_url is bound to an integer and api_token is a
valid string token, construction raises AttributeError (startswith
is not an attribute of int), not InvalidCredentialsError. -/
theorem claim_C10_non_string_url_raises_attribute_error
    (credentials : PyDict) (n : Int) (t : String)
    (hu : getKey credentials "base_url" = some (.int n))
    (ht : getKey credentials "api_token" = some (.str t))
    (hne : t ≠ "")
    (hlen : 10 ≤ pyLen (pyStrip t)) :
    CanvasValidator.validate_credentials_structure credentials =
      .error (.attributeError
        "\x27int\x27 object has no attribute \x27startswith\x27") ∧
    ∀ m, CanvasValidator.validate_credentials_structure credentials ≠
      .error (.invalidCredentials m) := by
  have hmain : CanvasValidator.validate_credentials_structure credentials =
      .error (.attributeError
        "\x27int\x27 object has no attribute \x27startswith\x27") := by
    simp [CanvasValidator.validate_credentials_structure, hu, ht, hne,
      pyTypeName, Nat.not_lt.mpr hlen]
  exact ⟨hmain, fun m => by simp [hmain]⟩

/-- Witness for C10 at a concrete credential bundle. -/
theorem claim_C10_witness :
    CanvasValidator.validate_credentials_structure
      [("base_url", PyVal.int 443), ("api_token", PyVal.str "TTTTTTTTTTTTTTT")] =
      .error (.attributeError
        "\x27int\x27 object has no attribute \x27startswith\x27") ∧
    ∀ m, CanvasValidator.validate_credentials_structure
      [("base_url", PyVal.int 443), ("api_token", PyVal.str "TTTTTTTTTTTTTTT")] ≠
      .error (.invalidCredentials m) :=
  claim_C10_non_string_url_raises_attribute_error
    [("base_url", PyVal.int 443), ("api_token", PyVal.str "TTTTTTTTTTTTTTT")]
    443 "TTTTTTTTTTTTTTT" rfl rfl (by decide) (by decide)

/-- A list that begins with an element on which the predicate fails
is untouched by dropWhile. -/
theorem dropWhile_cons_false {α : Type} (p : α → Bool) (c : α)
    (t : List α) (h : p c = false) : (c :: t).dropWhile p = c :: t :=
  List.dropWhile_cons_of_neg (by simp [h])

/-- The predicate fails on the head of a dropWhile result. -/
theorem dropWhile_head_false {α : Type} {p : α → Bool} {l : List α}
    {c : α} {rest : List α} (h : l.dropWhile p = c :: rest) :
    p c = false := by
  have h2 := List.head?_dropWhile_not p l
  rw [h] at h2
  exact h2

/-- dropWhile is idempotent. -/
theorem dropWhile_idem {α : Type} (p : α → Bool) (l : List α) :
    (l.dropWhile p).dropWhile p = l.dropWhile p := by
  rcases h : l.dropWhile p with _ | ⟨c, rest⟩
  · rfl
  · exact dropWhile_cons_false p c rest (dropWhile_head_false h)

/-- dropTrailing is idempotent. -/
theorem dropTrailing_idem {α : Type} (p : α → Bool) (l : List α) :
    dropTrailing p (dropTrailing p l) = dropTrailing p l := by
  unfold dropTrailing
  rw [List.reverse_reverse, dropWhile_idem]

/-- dropTrailing yields a prefix of its argument. -/
theorem dropTrailing_append {α : Type} (p : α → Bool) (l : List α) :
    dropTrailing p l ++ (l.reverse.takeWhile p).reverse = l := by
  rw [dropTrailing, ← List.reverse_append, List.takeWhile_append_dropWhile,
    List.reverse_reverse]

/-- The head of a nonempty dropTrailing result is the head of the
original list. -/
theorem dropTrailing_head {α : Type} (p : α → Bool) (l : List α)
    (c : α) (rest : List α) (h : dropTrailing p l = c :: rest) :
    l.head? = some c := by
  have hd := dropTrailing_append p l
  rw [h] at hd
  rw [← hd]
  rfl

/-- Python str.strip is idempotent on the character list. -/
theorem pyStripList_idem (l : List Char) :
    pyStripList (pyStripList l) = pyStripList l := by
  unfold pyStripList
  have hinner :
      (dropTrailing Char.isWhitespace
          (l.dropWhile Char.isWhitespace)).dropWhile Char.isWhitespace =
        dropTrailing Char.isWhitespace (l.dropWhile Char.isWhitespace) := by
    rcases h : dropTrailing Char.isWhitespace (l.dropWhile Char.isWhitespace)
      with _ | ⟨c, rest⟩
    · rfl
    · have hh := dropTrailing_head _ _ _ _ h
      have hc : Char.isWhitespace c = false := by
        rcases h3 : l.dropWhile Char.isWhitespace with _ | ⟨d, t⟩
        · rw [h3] at h
          simp [dropTrailing] at h
        · rw [h3] at hh
          simp at hh
          rw [hh] at h3
          exact dropWhile_head_false h3
      exact dropWhile_cons_false _ c rest hc
  rw [hinner, dropTrailing_idem]

/-- Python str.strip is idempotent. -/
theorem pyStrip_idem (s : String) : pyStrip (pyStrip s) = pyStrip s :=
  congrArg String.mk (pyStripList_idem s.data)

/-- Python rstrip of slashes is idempotent. -/
theorem pyRstripSlash_idem (s : String) :
    pyRstripSlash (pyRstripSlash s) = pyRstripSlash s :=
  congrArg String.mk (dropTrailing_idem _ s.data)

/-- Reading back the key just assigned. -/
theorem getKey_setKey_self (d : PyDict) (key : String) (v : PyVal) :
    getKey (setKey d key v) key = some v := by
  induction d with
  | nil => simp [setKey, getKey]
  | cons p rest ih =>
    obtain ⟨k, w⟩ := p
    by_cases h : k = key <;> simp [setKey, getKey, h, ih]

/-- Assignment to one key leaves the other keys unchanged. -/
theorem getKey_setKey_ne (d : PyDict) (key qk : String) (v : PyVal)
    (h : qk ≠ key) : getKey (setKey d key v) qk = getKey d qk := by
  have hne : (key = qk) = False := eq_false fun hh => h hh.symm
  induction d with
  | nil => simp [setKey, getKey, hne]
  | cons p rest ih =>
    obtain ⟨k, w⟩ := p
    by_cases hk : k = key
    · subst hk
      simp [setKey, getKey, hne]
    · simp [setKey, getKey, hk, ih]

/-- Assigning the same value to the same key twice equals assigning
it once. -/
theorem setKey_setKey (d : PyDict) (key : String) (v : PyVal) :
    setKey (setKey d key v) key v = setKey d key v := by
  induction d with
  | nil => simp [setKey]
  | cons p rest ih =>
    obtain ⟨k, w⟩ := p
    by_cases h : k = key <;> simp [setKey, h, ih]

/-- Inversion of a successful construction: the accepted bundle had
a string URL with an accepted scheme and a string token whose
trimmed form has at least 10 characters, and the returned bundle is
the input with the token trimmed (when that changes it) and the URL
slash-stripped. -/
theorem validate_credentials_structure_ok_inv (creds creds2 : PyDict)
    (h : CanvasValidator.validate_credentials_structure creds = .ok creds2) :
    ∃ u t,
      getKey creds "base_url" = some (PyVal.str u) ∧
      getKey creds "api_token" = some (PyVal.str t) ∧
      t ≠ "" ∧
      ¬ pyLen (pyStrip t) < 10 ∧
      (pyStartsWith u "http://" || pyStartsWith u "https://") = true ∧
      creds2 = setKey
        (if pyStrip t = t then creds
         else setKey creds "api_token" (PyVal.str (pyStrip t)))
        "base_url" (PyVal.str (pyRstripSlash u)) := by
  rcases hbu : getKey creds "base_url" with _ | bv
  · simp [CanvasValidator.validate_credentials_structure, hbu] at h
  rcases hat : getKey creds "api_token" with _ | av
  · simp [CanvasValidator.validate_credentials_structure, hbu, hat] at h
  rcases av with t | n | _
  · rcases bv with u | n | _
    · by_cases hte : t = ""
      · simp [CanvasValidator.validate_credentials_structure, hbu, hat,
          hte] at h
      by_cases hlen : pyLen (pyStrip t) < 10
      · simp [CanvasValidator.validate_credentials_structure, hbu, hat,
          hte, hlen] at h
      by_cases hsw : (pyStartsWith u "http://" || pyStartsWith u "https://") = true
      · refine ⟨u, t, rfl, rfl, hte, hlen, hsw, ?_⟩
        simp [CanvasValidator.validate_credentials_structure, hbu, hat,
          hte, hlen, hsw] at h
        exact h.symm
      · simp [CanvasValidator.validate_credentials_structure, hbu, hat,
          hte, hlen, hsw] at h
    · by_cases hte : t = "" <;> by_cases hlen : pyLen (pyStrip t) < 10 <;>
        simp [CanvasValidator.validate_credentials_structure, hbu, hat,
          hte, hlen] at h
    · by_cases hte : t = "" <;> by_cases hlen : pyLen (pyStrip t) < 10 <;>
        simp [CanvasValidator.validate_credentials_structure, hbu, hat,
          hte, hlen] at h
  · simp [CanvasValidator.validate_credentials_structure, hbu, hat] at h
  · simp [CanvasValidator.validate_credentials_structure, hbu, hat] at h

/-- The credential bundle whose URL is a bare scheme prefix. -/
def schemeOnlyCreds : PyDict :=
  [("base_url", PyVal.str "http://"), ("api_token", PyVal.str "TTTTTTTTTTTTTTT")]

/-- The normalized form construction produces for schemeOnlyCreds. -/
def schemeOnlyCredsNormalized : PyDict :=
  [("base_url", PyVal.str "http:"), ("api_token", PyVal.str "TTTTTTTTTTTTTTT")]

/-- C7 counterexample: the bundle with base_url http:// and a
15-character token is accepted by construction, which strips the
trailing slashes down to http: — but re-running structural
validation on that already-normalized bundle does not return it
unchanged: it raises InvalidCredentialsError, because the stripped
URL no longer starts with an accepted scheme. Normalization is
therefore not idempotent on every accepted bundle. -/
theorem claim_C7_counterexample :
    CanvasValidator.validate_credentials_structure schemeOnlyCreds =
      .ok schemeOnlyCredsNormalized ∧
    CanvasValidator.validate_credentials_structure schemeOnlyCredsNormalized =
      .error (.invalidCredentials
        "base_url must start with http:// or https://") :=
  ⟨rfl, rfl⟩

/-- C7 amended: for every bundle accepted by construction whose
normalized URL still starts with an accepted scheme prefix,
re-running structural normalization returns the bundle unchanged;
and the concrete bundle with URL https://x.test/ and a 15-character
token normalizes to https://x.test with the token unchanged, a
fixed point of normalization. -/
theorem claim_C7_normalization_idempotence :
    (∀ creds creds2 u2,
      CanvasValidator.validate_credentials_structure creds = .ok creds2 →
      getKey creds2 "base_url" = some (PyVal.str u2) →
      (pyStartsWith u2 "http://" || pyStartsWith u2 "https://") = true →
      CanvasValidator.validate_credentials_structure creds2 = .ok creds2) ∧
    (CanvasValidator.validate_credentials_structure
        [("base_url", PyVal.str "https://x.test/"),
         ("api_token", PyVal.str "TTTTTTTTTTTTTTT")] =
      .ok [("base_url", PyVal.str "https://x.test"),
           ("api_token", PyVal.str "TTTTTTTTTTTTTTT")] ∧
     CanvasValidator.validate_credentials_structure
        [("base_url", PyVal.str "https://x.test"),
         ("api_token", PyVal.str "TTTTTTTTTTTTTTT")] =
      .ok [("base_url", PyVal.str "https://x.test"),
           ("api_token", PyVal.str "TTTTTTTTTTTTTTT")]) := by
  refine ⟨?_, rfl, rfl⟩
  intro creds creds2 u2 h hu2 hsw2
  obtain ⟨u, t, hbu, hat, hte, hlen, hsw, hnorm⟩ :=
    validate_credentials_structure_ok_inv creds creds2 h
  have hbu2 : getKey creds2 "base_url" =
      some (PyVal.str (pyRstripSlash u)) := by
    rw [hnorm]
    exact getKey_setKey_self _ _ _
  have hu2eq : u2 = pyRstripSlash u := by
    rw [hbu2] at hu2
    exact (PyVal.str.inj (Option.some.inj hu2)).symm
  subst hu2eq
  have hat2 : getKey creds2 "api_token" =
      some (PyVal.str (pyStrip t)) := by
    rw [hnorm, getKey_setKey_ne _ _ _ _ (by decide)]
    by_cases hch : pyStrip t = t
    · rw [if_pos hch, hat, hch]
    · rw [if_neg hch]
      exact getKey_setKey_self _ _ _
  have hstrip2 : pyStrip (pyStrip t) = pyStrip t := pyStrip_idem t
  have hte2 : pyStrip t ≠ "" := by
    intro hh
    apply hlen
    rw [hh]
    decide
  have hfinal : setKey creds2 "base_url"
      (PyVal.str (pyRstripSlash (pyRstripSlash u))) = creds2 := by
    rw [pyRstripSlash_idem, hnorm]
    exact setKey_setKey _ _ _
  simp [CanvasValidator.validate_credentials_structure, hbu2, hat2, hte2,
    hstrip2, hlen, hsw2, hfinal]

/-- Witness for C7 at the concrete bundle of the claim. -/
theorem claim_C7_witness :
    CanvasValidator.validate_credentials_structure
      [("base_url", PyVal.str "https://x.test"),
       ("api_token", PyVal.str "TTTTTTTTTTTTTTT")] =
    .ok [("base_url", PyVal.str "https://x.test"),
         ("api_token", PyVal.str "TTTTTTTTTTTTTTT")] :=
  claim_C7_normalization_idempotence.1
    [("base_url", PyVal.str "https://x.test/"),
     ("api_token", PyVal.str "TTTTTTTTTTTTTTT")]
    [("base_url", PyVal.str "https://x.test"),
     ("api_token", PyVal.str "TTTTTTTTTTTTTTT")]
    "https://x.test" rfl rfl (by decide)

/-- String append acts on the underlying character lists. -/
theorem pyStr_append_data (a b : String) : (a ++ b).data = a.data ++ b.data := by
  cases a
  cases b
  rfl

/-- String append is associative. -/
theorem pyStr_append_assoc (a b c : String) :
    a ++ b ++ c = a ++ (b ++ c) := by
  cases a
  cases b
  cases c
  exact congrArg String.mk (List.append_assoc _ _ _)

/-- The empty string is a right identity of append. -/
theorem pyStr_append_empty (a : String) : a ++ "" = a := by
  cases a
  exact congrArg String.mk (List.append_nil _)

/-- The concrete validator classes the registry can hold. -/
inductive ValidatorClass where
  | canvas
  deriving DecidableEq, Repr

namespace LMSValidatorFactory

/-- The seeded class-level registry _validators of
src/services/lms_validators/validator_factory.py. -/
def validators : List (String × ValidatorClass) :=
  [("canvas", ValidatorClass.canvas)]

/-- LMSValidatorFactory.supported_lms_types: the registry keys. -/
def supported_lms_types : List String :=
  validators.map Prod.fst

/-- Running validator_class(credentials): __init__ stores the
credential dict and runs validate_credentials_structure, so the
constructed instance is its class paired with its (normalized)
credential dict, or the construction-time exception. -/
def constructValidator (cls : ValidatorClass) (credentials : PyDict) :
    Except PyError (ValidatorClass × PyDict) :=
  match cls with
  | .canvas =>
      (CanvasValidator.validate_credentials_structure credentials).map
        (fun c => (ValidatorClass.canvas, c))

/-- LMSValidatorFactory.create: lowercases the type tag, looks up the
registry, raises UnsupportedLMSError listing the registered tags on
a miss, and otherwise constructs the validator. -/
def create (lms_type : String) (credentials : PyDict) :
    Except PyError (ValidatorClass × PyDict) :=
  match validators.find? (fun p => p.1 = pyLower lms_type) with
  | none =>
      .error (.unsupportedLMS
        ("LMS type \x27" ++ lms_type ++
         "\x27 is not supported. Supported types: " ++
         String.intercalate ", " supported_lms_types))
  | some p => constructValidator p.2 credentials

/-- LMSValidatorFactory.is_supported: membership of the lowercased
tag in the registry. -/
def is_supported (lms_type : String) : Bool :=
  (validators.find? (fun p => p.1 = pyLower lms_type)).isSome

end LMSValidatorFactory

/-- C8: for structurally valid credentials, create with the tags
CANVAS, Canvas and canvas produces a validator of the same concrete
class (the Canvas one, holding the same normalized credentials),
and is_supported agrees on any two tags with the same lowercase
form. -/
theorem claim_C8_factory_lookup_case_insensitive :
    (∀ creds creds2,
      CanvasValidator.validate_credentials_structure creds = .ok creds2 →
      LMSValidatorFactory.create "CANVAS" creds =
        .ok (ValidatorClass.canvas, creds2) ∧
      LMSValidatorFactory.create "Canvas" creds =
        .ok (ValidatorClass.canvas, creds2) ∧
      LMSValidatorFactory.create "canvas" creds =
        .ok (ValidatorClass.canvas, creds2)) ∧
    (∀ s t : String, pyLower s = pyLower t →
      LMSValidatorFactory.is_supported s =
        LMSValidatorFactory.is_supported t) := by
  constructor
  · intro creds creds2 h
    have h1 : pyLower "CANVAS" = "canvas" := by decide
    have h2 : pyLower "Canvas" = "canvas" := by decide
    have h3 : pyLower "canvas" = "canvas" := by decide
    refine ⟨?_, ?_, ?_⟩ <;>
      simp [LMSValidatorFactory.create, LMSValidatorFactory.validators,
        LMSValidatorFactory.constructValidator, h1, h2, h3, h, Except.map]
  · intro s t h
    unfold LMSValidatorFactory.is_supported
    rw [h]

/-- Witness for C8 at a concrete credential bundle. -/
theorem claim_C8_witness :
    (LMSValidatorFactory.create "CANVAS"
        [("base_url", PyVal.str "https://x.test/"),
         ("api_token", PyVal.str "TTTTTTTTTTTTTTT")] =
      .ok (ValidatorClass.canvas,
        [("base_url", PyVal.str "https://x.test"),
         ("api_token", PyVal.str "TTTTTTTTTTTTTTT")]) ∧
     LMSValidatorFactory.create "Canvas"
        [("base_url", PyVal.str "https://x.test/"),
         ("api_token", PyVal.str "TTTTTTTTTTTTTTT")] =
      .ok (ValidatorClass.canvas,
        [("base_url", PyVal.str "https://x.test"),
         ("api_token", PyVal.str "TTTTTTTTTTTTTTT")]) ∧
     LMSValidatorFactory.create "canvas"
        [("base_url", PyVal.str "https://x.test/"),
         ("api_token", PyVal.str "TTTTTTTTTTTTTTT")] =
      .ok (ValidatorClass.canvas,
        [("base_url", PyVal.str "https://x.test"),
         ("api_token", PyVal.str "TTTTTTTTTTTTTTT")])) ∧
    LMSValidatorFactory.is_supported "CaNvAs" =
      LMSValidatorFactory.is_supported "canvas" :=
  ⟨claim_C8_factory_lookup_case_insensitive.1
      [("base_url", PyVal.str "https://x.test/"),
       ("api_token", PyVal.str "TTTTTTTTTTTTTTT")]
      [("base_url", PyVal.str "https://x.test"),
       ("api_token", PyVal.str "TTTTTTTTTTTTTTT")] rfl,
   claim_C8_factory_lookup_case_insensitive.2 "CaNvAs" "canvas" (by decide)⟩

/-- C9: for a type tag whose lowercase form is not registered,
create raises UnsupportedLMSError whose message contains every
registered tag, and no validator is constructed (create returns the
error without running any constructor). -/
theorem claim_C9_unsupported_type (lms_type : String) (creds : PyDict)
    (h : LMSValidatorFactory.validators.find?
      (fun p => p.1 = pyLower lms_type) = none) :
    ∃ msg,
      LMSValidatorFactory.create lms_type creds =
        .error (.unsupportedLMS msg) ∧
      ∀ k ∈ LMSValidatorFactory.supported_lms_types,
        ∃ l r, msg = l ++ k ++ r := by
  refine ⟨_, by rw [LMSValidatorFactory.create, h], ?_⟩
  intro k hk
  simp [LMSValidatorFactory.supported_lms_types,
    LMSValidatorFactory.validators] at hk
  subst hk
  refine ⟨"LMS type \x27" ++ lms_type ++
    "\x27 is not supported. Supported types: ", "", ?_⟩
  rw [pyStr_append_empty]
  rfl

/-- Witness for C9 at the tag moodle. -/
theorem claim_C9_witness :
    ∃ msg,
      LMSValidatorFactory.create "moodle" [] =
        .error (.unsupportedLMS msg) ∧
      ∀ k ∈ LMSValidatorFactory.supported_lms_types,
        ∃ l r, msg = l ++ k ++ r :=
  claim_C9_unsupported_type "moodle" [] (by decide)
